import Mathlib

/-!
Shallow embedding of the licensebat collection pipeline: the npm `Retriever`
(`licensebat-js/src/retriever/npm.rs`), the npm `Collector`
(`licensebat-js/src/collector/npm.rs`, `collector/common.rs`) and the CLI
pipeline driver (`licensebat-cli/src/check.rs`).

Asynchronous HTTP is modelled by passing the already-resolved registry
response as an explicit `Except` value: `.error e` stands for a transport or
deserialization failure whose description is `e`, `.ok v` for a successfully
deserialized `serde_json::Value`. Futures resolve to plain values, and a
stream of retrieved dependencies is the list of its items in arrival order.
-/

set_option autoImplicit false

namespace Licensebat

/-- A JSON value, mirroring the subset of `serde_json::Value` shapes the
retriever inspects (`Null`, `Bool`, `Number`, `String`, `Array`, `Object`).
Objects are association lists of string keys. -/
inductive Json where
  | null : Json
  | bool : Bool → Json
  | num : Int → Json
  | str : String → Json
  | arr : List Json → Json
  | obj : List (String × Json) → Json

/-- `serde_json::Value` indexing `value[key]`: on an object, the value of the
first binding of `key`, `Null` when the key is missing; `Null` on every
non-object value. -/
def Json.index : Json → String → Json
  | .obj fields, key =>
    match fields.find? (fun p => p.1 == key) with
    | some p => p.2
    | none => .null
  | _, _ => .null

/-- The `licensebat_core::Dependency` identity parsed from a lockfile. -/
structure Dependency where
  name : String
  version : String
deriving DecidableEq

/-- The `licensebat_core::Comment` annotation. `Comment::removable` builds a
comment flagged as removable from its text. -/
structure Comment where
  text : String
  removable : Bool
deriving DecidableEq

def Comment.mkRemovable (text : String) : Comment :=
  { text := text, removable := true }

/-- The uniform `licensebat_core::RetrievedDependency` record. -/
structure RetrievedDependency where
  name : String
  version : String
  url : Option String
  dependency_type : String
  validated : Bool
  is_valid : Bool
  is_ignored : Bool
  error : Option String
  licenses : Option (List String)
  comment : Option Comment
deriving DecidableEq

/-- Modelled from the spec: the version-specific metadata record
(`NpmMetadata`, whose source file is not part of this development); only its
optional `license` string is consumed by the retriever. -/
structure NpmMetadata where
  license : Option String
deriving DecidableEq

/-- Modelled from the spec: `serde_json::from_value` deserialization of a
version entry into `NpmMetadata`. The entry must be a JSON object; a string
`license` field is the version-specific license, an absent (or null) field
leaves it unset, and any other shape fails deserialization. -/
def NpmMetadata.fromJson : Json → Option NpmMetadata
  | .obj fields =>
    match Json.index (.obj fields) "license" with
    | .str s => some { license := some s }
    | .null => some { license := none }
    | _ => none
  | _ => none

/-- Modelled from the spec: `NpmMetadata::get_licenses` normalizes the
resolved license expression into an ordered list of identifiers, or none when
no license was resolved. The spec leaves the decomposition rule for compound
expressions ecosystem-specific, so a resolved expression is kept as a
single-element list. -/
def NpmMetadata.get_licenses (md : NpmMetadata) : Option (List String) :=
  md.license.map (fun l => [l])

/-- The package-level fallback of `Npm::get_dependency`
(`retriever/npm.rs` lines 71-78): a plain string license is taken as is, an
object license contributes its `type` field when that is a string, and every
other shape yields no license. -/
def package_level_license : Json → Option String
  | .str lic => some lic
  | .obj lic =>
    match Json.index (.obj lic) "type" with
    | .str s => some s
    | _ => none
  | _ => none

/-- The `map_ok` closure of `Npm::get_dependency` (`retriever/npm.rs` lines
61-82): deserialize the entry of the requested version from
`metadata["versions"]`, fall back to the package-level `metadata["license"]`
when the version carries no license of its own, and normalize. -/
def npm_resolve_licenses (metadata : Json) (dependency_version : String) :
    Option (List String) :=
  (NpmMetadata.fromJson
      (Json.index (Json.index metadata "versions") dependency_version)).bind
    (fun md =>
      (if md.license.isNone then
        { md with
          license := package_level_license (Json.index metadata "license") }
      else md).get_licenses)

/-- `build_retrieved_dependency` (`retriever/npm.rs` lines 92-130). -/
def build_retrieved_dependency (dependency : Dependency)
    (licenses : Option (List String)) (error : Option String) :
    RetrievedDependency :=
  let url :=
    "https://www.npmjs.com/package/" ++ dependency.name ++ "/v/" ++
      dependency.version
  let has_licenses := licenses.isSome
  { name := dependency.name
    version := dependency.version
    url := some url
    dependency_type := "npm"
    validated := false
    is_valid := has_licenses && error.isNone
    is_ignored := false
    error :=
      match error with
      | some err => some err
      | none => if has_licenses then none else some "No License"
    licenses := if has_licenses then licenses else some ["NO-LICENSE"]
    comment :=
      if has_licenses then none
      else
        some (Comment.mkRemovable
          "Consider **ignoring** this specific dependency. You can also accept the **NO-LICENSE** key to avoid these issues.") }

/-- The combinator chain of `Npm::get_dependency` (`retriever/npm.rs` lines
47-88) before the final `unwrap`: `map_ok` resolves the licenses and builds
the record, `or_else` converts any failure into an error-bearing record, so
the resulting value has the uninhabited error type (`std::convert::Infallible`
in the source, `Empty` here). -/
def get_dependency_future (dep_name dep_version : String)
    (response : Except String Json) : Except Empty RetrievedDependency :=
  let dependency : Dependency := { name := dep_name, version := dep_version }
  let licenses_result : Except String (Option (List String)) :=
    response.map (fun metadata => npm_resolve_licenses metadata dep_version)
  let ok_result : Except String RetrievedDependency :=
    licenses_result.map (fun licenses =>
      build_retrieved_dependency dependency licenses none)
  match ok_result with
  | .ok d => .ok d
  | .error e => .ok (build_retrieved_dependency dependency none (some e))

/-- `Npm::get_dependency` after the final
`Result::<RetrievedDependency, Infallible>::unwrap`: the record the future
resolves to. The `error` branch is uninhabited, which is exactly why the
`unwrap` in the source can never panic. -/
def get_dependency (dep_name dep_version : String)
    (response : Except String Json) : RetrievedDependency :=
  match get_dependency_future dep_name dep_version response with
  | .ok d => d
  | .error e => e.elim

/-- `Result::unwrap` as applied in `collector/common.rs` line 18 to the
infallible per-dependency results: total because the error type is empty. -/
def unwrap_infallible {α : Type} : Except Empty α → α
  | .ok a => a
  | .error e => e.elim

/-- `retrieve_from_npm` (`collector/common.rs` lines 9-22): one retriever
invocation per dependency, each unwrapped; the stream is the list of the
records it yields. -/
def retrieve_from_npm (deps : List Dependency)
    (retriever : String → String → Except Empty RetrievedDependency) :
    List RetrievedDependency :=
  deps.map (fun dep => unwrap_infallible (retriever dep.name dep.version))

/-- Modelled from the spec: the lockfile schema (`NpmDependencies`, whose
source file is not part of this development) — a JSON object whose
`dependencies` field maps each dependency name to an entry carrying a
`version` string. Parsing one entry fails when the `version` string is
missing. -/
def parse_npm_dep_entry (p : String × Json) : Except String Dependency :=
  match Json.index p.2 "version" with
  | .str ver => .ok { name := p.1, version := ver }
  | _ => .error "invalid npm dependency entry"

/-- Modelled from the spec: `serde_json::from_str::<NpmDependencies>` on the
lockfile content (already given as a JSON value), producing the dependency
records of `Npm::get_dependencies` in declaration order. -/
def parse_npm_dependencies : Json → Except String (List Dependency)
  | .obj fields =>
    match Json.index (.obj fields) "dependencies" with
    | .obj deps => deps.mapM parse_npm_dep_entry
    | _ => .error "invalid package-lock.json"
  | _ => .error "invalid package-lock.json"

/-- `Npm::get_dependencies` (`collector/npm.rs` lines 47-58): parse the
lockfile, propagating a parse failure with `?`, then fan the parsed
dependencies out through `retrieve_from_npm`. -/
def npm_collector_get_dependencies
    (retriever : String → String → Except Empty RetrievedDependency)
    (content : Json) : Except String (List RetrievedDependency) :=
  (parse_npm_dependencies content).map (fun deps =>
    retrieve_from_npm deps retriever)

/-- A registered `FileCollector` as the CLI driver sees it: its lockfile
filename (`get_dependency_filename`) and its `get_dependencies` parse-and-fan
step, over lockfile content of type `α`. -/
structure FileCollector (α : Type) where
  dependency_filename : String
  get_dependencies : α → Except String (List RetrievedDependency)

/-- Leading-segment comparison of character lists: the first list read in
full at the head of the second. -/
def chars_lead : List Char → List Char → Bool
  | [], _ => true
  | _ :: _, [] => false
  | n :: ns, h :: hs => n == h && chars_lead ns hs

/-- Substring occurrence on character lists. -/
def chars_contain : List Char → List Char → Bool
  | [], needle => needle.isEmpty
  | h :: rest, needle => chars_lead needle (h :: rest) || chars_contain rest needle

/-- Rust's `str::contains` with a string pattern, as used by the driver's
`cli.dependency_file.contains(&c.get_dependency_filename())`. -/
def string_contains (haystack needle : String) : Bool :=
  chars_contain haystack.data needle.data

/-- The collector-selection step of `run` (`check.rs` line 54-56):
`file_collectors.iter().find(...)` — the first registered collector whose
lockfile filename occurs in the supplied path. -/
def find_collector {α : Type} (collectors : List (FileCollector α))
    (path : String) : Option (FileCollector α) :=
  collectors.find? (fun c => string_contains path c.dependency_filename)

/-- The pipeline of `run` (`check.rs` lines 54-70): select a collector,
discard a parse failure with `.ok()`, and drain the stream. `none` is the
`.expect("No collector found for dependency file")` panic; `some` carries the
drained records. -/
def run_pipeline {α : Type} (collectors : List (FileCollector α))
    (path : String) (content : α) : Option (List RetrievedDependency) :=
  (find_collector collectors path).bind (fun c =>
    (c.get_dependencies content).toOption)

theorem get_dependency_ok_eq (n v : String) (m : Json) :
    get_dependency n v (.ok m) =
      build_retrieved_dependency { name := n, version := v }
        (npm_resolve_licenses m v) none := rfl

theorem get_dependency_err_eq (n v e : String) :
    get_dependency n v (.error e) =
      build_retrieved_dependency { name := n, version := v } none (some e) := rfl

theorem unwrap_future_eq (n v : String) (r : Except String Json) :
    unwrap_infallible (get_dependency_future n v r) = get_dependency n v r := by
  cases r <;> rfl

/-- C1: for every dependency name, version and registry outcome, the future
returned by the npm retriever resolves (`.ok`) to a `RetrievedDependency`, so
the `Infallible` unwrap inside `get_dependency` can never panic, and the
`Result::unwrap` applied when draining the stream in `retrieve_from_npm`
never panics either: draining yields exactly the records the futures resolve
to. -/
theorem npm_get_dependency_never_fails (n v : String) (r : Except String Json)
    (deps : List Dependency)
    (responses : String → String → Except String Json) :
    get_dependency_future n v r = .ok (get_dependency n v r) ∧
    retrieve_from_npm deps
        (fun a b => get_dependency_future a b (responses a b)) =
      deps.map (fun dep =>
        get_dependency dep.name dep.version (responses dep.name dep.version)) := by
  constructor
  · cases r <;> rfl
  · unfold retrieve_from_npm
    exact congrArg (fun f => List.map f deps)
      (funext (fun dep =>
        unwrap_future_eq dep.name dep.version (responses dep.name dep.version)))

/-- C2 counterexample: a dependency whose registry call fails does not get
`licenses = none` — the sentinel list is substituted even on a transport
error, so the claim fails at this concrete input. -/
theorem npm_fetch_failure_licenses_not_none_cx :
    (get_dependency "foo" "2.0.0" (.error "connection timed out")).licenses ≠
        none ∧
    (get_dependency "foo" "2.0.0" (.error "connection timed out")).licenses =
        some ["NO-LICENSE"] := by
  exact ⟨by decide, rfl⟩

/-- C2 (amended): for every dependency whose registry call fails, the record
has `error` set to the failure's description and `is_valid = false`, but
`licenses = some ["NO-LICENSE"]` (the sentinel is substituted even on a fetch
failure) and a populated comment, rather than `licenses = none`. -/
theorem npm_fetch_failure_record_fields (n v e : String) :
    (get_dependency n v (.error e)).error = some e ∧
    (get_dependency n v (.error e)).is_valid = false ∧
    (get_dependency n v (.error e)).licenses = some ["NO-LICENSE"] ∧
    (get_dependency n v (.error e)).comment.isSome = true :=
  ⟨rfl, rfl, rfl, rfl⟩

/-- C9: every record built by the npm retriever — through
`build_retrieved_dependency` on any inputs, hence for every registry outcome
of `get_dependency` — has `validated = false` and `is_ignored = false`: the
retriever never sets the policy-only flags. -/
theorem npm_retriever_never_sets_policy_flags (dep : Dependency)
    (licenses : Option (List String)) (error : Option String)
    (n v : String) (r : Except String Json) :
    (build_retrieved_dependency dep licenses error).validated = false ∧
    (build_retrieved_dependency dep licenses error).is_ignored = false ∧
    (get_dependency n v r).validated = false ∧
    (get_dependency n v r).is_ignored = false := by
  refine ⟨rfl, rfl, ?_, ?_⟩ <;> cases r <;> rfl

/-- C10: every record produced by the npm retriever — including records for
failed registry calls — has `url` equal to the npmjs package page built from
the requested name and version, and carries back exactly the requested name
and version. -/
theorem npm_retrieved_dependency_url_and_identity (n v : String)
    (r : Except String Json) :
    (get_dependency n v r).url =
      some ("https://www.npmjs.com/package/" ++ n ++ "/v/" ++ v) ∧
    (get_dependency n v r).name = n ∧
    (get_dependency n v r).version = v := by
  refine ⟨?_, ?_, ?_⟩ <;> cases r <;> rfl

/-- C3 counterexample: a successful registry response whose license cannot be
determined yields `error = some "No License"`, not an absent error, so the
claim's `error == None` fails at this concrete input. -/
theorem npm_no_license_error_populated_cx :
    npm_resolve_licenses (Json.obj []) "2.0.0" = none ∧
    (get_dependency "foo" "2.0.0" (.ok (Json.obj []))).error =
      some "No License" :=
  ⟨rfl, rfl⟩

/-- C3 (amended): for every successful registry response whose license cannot
be determined, the record has `licenses = some ["NO-LICENSE"]`, a populated
comment and `is_valid = false`, but `error = some "No License"` — a fixed
"No License" text rather than the claim's absent error; the outcome is still
distinguishable from a fetch failure by the sentinel license list, the
comment and the fixed error text. -/
theorem npm_no_license_success_record_fields (n v : String) (m : Json)
    (h : npm_resolve_licenses m v = none) :
    (get_dependency n v (.ok m)).licenses = some ["NO-LICENSE"] ∧
    (get_dependency n v (.ok m)).comment.isSome = true ∧
    (get_dependency n v (.ok m)).error = some "No License" ∧
    (get_dependency n v (.ok m)).is_valid = false := by
  rw [get_dependency_ok_eq, h]
  exact ⟨rfl, rfl, rfl, rfl⟩

/-- C3 witness: the amended record shape at a concrete successful response
carrying no license information at all. -/
theorem npm_no_license_success_record_fields_witness :
    (get_dependency "left-pad" "9.9.9" (.ok (Json.obj []))).licenses =
        some ["NO-LICENSE"] ∧
    (get_dependency "left-pad" "9.9.9" (.ok (Json.obj []))).comment.isSome =
        true ∧
    (get_dependency "left-pad" "9.9.9" (.ok (Json.obj []))).error =
        some "No License" ∧
    (get_dependency "left-pad" "9.9.9" (.ok (Json.obj []))).is_valid = false :=
  npm_no_license_success_record_fields "left-pad" "9.9.9" (Json.obj []) rfl

/-- C6: `is_valid` is exactly "a license list was resolved and no transport
error occurred": in `build_retrieved_dependency` it equals
`licenses.isSome && error.isNone`; at the retriever level a successful
response yields `is_valid = (npm_resolve_licenses m v).isSome` and a failed
one `is_valid = false`; and a record built from a non-empty license list with
no transport error has `is_valid = true` and `error = none`. -/
theorem npm_is_valid_iff_licenses_and_no_error (dep : Dependency)
    (licenses : Option (List String)) (error : Option String)
    (n v e : String) (m : Json) (ls : List String) (_h : ls ≠ []) :
    (build_retrieved_dependency dep licenses error).is_valid =
      (licenses.isSome && error.isNone) ∧
    (get_dependency n v (.ok m)).is_valid =
      (npm_resolve_licenses m v).isSome ∧
    (get_dependency n v (.error e)).is_valid = false ∧
    (build_retrieved_dependency dep (some ls) none).is_valid = true ∧
    (build_retrieved_dependency dep (some ls) none).error = none := by
  refine ⟨rfl, ?_, rfl, rfl, rfl⟩
  rw [get_dependency_ok_eq]
  exact Bool.and_true _

/-- C6 witness: a dependency resolved with the non-empty license list
`["MIT"]` and no transport error is valid and error-free. -/
theorem npm_is_valid_iff_licenses_and_no_error_witness :
    (build_retrieved_dependency { name := "left-pad", version := "1.3.0" }
        (some ["MIT"]) none).is_valid = true ∧
    (build_retrieved_dependency { name := "left-pad", version := "1.3.0" }
        (some ["MIT"]) none).error = none :=
  ⟨(npm_is_valid_iff_licenses_and_no_error
      { name := "left-pad", version := "1.3.0" } (some ["MIT"]) none
      "left-pad" "1.3.0" "err" Json.null ["MIT"] (by decide)).2.2.2.1,
   (npm_is_valid_iff_licenses_and_no_error
      { name := "left-pad", version := "1.3.0" } (some ["MIT"]) none
      "left-pad" "1.3.0" "err" Json.null ["MIT"] (by decide)).2.2.2.2⟩

/-- C7: license resolution prefers the version-specific license field; when
the requested version's entry deserializes without one, the package-level
field is used — taken as is when a plain string, via its `type` field when an
object whose `type` is a string, and yielding no license for every other
shape (object without a string `type`, null, boolean, number, array). -/
theorem npm_license_resolution_order (metadata : Json) (v s : String) :
    (NpmMetadata.fromJson (Json.index (Json.index metadata "versions") v) =
        some { license := some s } →
      npm_resolve_licenses metadata v =
        NpmMetadata.get_licenses { license := some s }) ∧
    (NpmMetadata.fromJson (Json.index (Json.index metadata "versions") v) =
        some { license := none } →
      npm_resolve_licenses metadata v =
        NpmMetadata.get_licenses
          { license :=
              package_level_license (Json.index metadata "license") }) ∧
    package_level_license (Json.str s) = some s ∧
    (∀ fields t, Json.index (Json.obj fields) "type" = Json.str t →
      package_level_license (Json.obj fields) = some t) ∧
    (∀ fields, (∀ t, Json.index (Json.obj fields) "type" ≠ Json.str t) →
      package_level_license (Json.obj fields) = none) ∧
    package_level_license Json.null = none ∧
    (∀ b, package_level_license (Json.bool b) = none) ∧
    (∀ i, package_level_license (Json.num i) = none) ∧
    (∀ xs, package_level_license (Json.arr xs) = none) := by
  refine ⟨?_, ?_, rfl, ?_, ?_, rfl, fun b => rfl, fun i => rfl, fun xs => rfl⟩
  · intro h
    unfold npm_resolve_licenses
    rw [h]
    rfl
  · intro h
    unfold npm_resolve_licenses
    rw [h]
    rfl
  · intro fields t h
    simp only [package_level_license]
    rw [h]
  · intro fields hne
    cases hidx : Json.index (Json.obj fields) "type"
    case str t => exact absurd hidx (hne t)
    all_goals simp only [package_level_license, hidx]

/-- C7 witness: a registry response whose requested version entry carries no
license of its own falls back to the package-level string license. -/
theorem npm_license_resolution_order_witness :
    npm_resolve_licenses
        (Json.obj [("license", Json.str "MIT"),
                   ("versions", Json.obj [("1.3.0", Json.obj [])])])
        "1.3.0" = some ["MIT"] :=
  ((npm_license_resolution_order
      (Json.obj [("license", Json.str "MIT"),
                 ("versions", Json.obj [("1.3.0", Json.obj [])])])
      "1.3.0" "MIT").2.1 rfl).trans rfl

/-- An npm retriever whose every registry call fails at the transport layer,
for exercising the pipeline on concrete inputs. -/
def demo_retriever (n v : String) : Except Empty RetrievedDependency :=
  get_dependency_future n v (.error "offline")

/-- The registered npm collector, with the demo retriever plugged in. -/
def demo_npm_collector : FileCollector Json :=
  { dependency_filename := "package-lock.json"
    get_dependencies := npm_collector_get_dependencies demo_retriever }

/-- A second registered collector recognizing `Cargo.lock`, whose parse step
yields no dependencies. -/
def demo_cargo_collector : FileCollector Json :=
  { dependency_filename := "Cargo.lock"
    get_dependencies := fun _ => .ok [] }

theorem find?_eq_of_unique {β : Type} (p : β → Bool) (l : List β) (c : β)
    (hmem : c ∈ l) (hc : p c = true)
    (huniq : ∀ c' ∈ l, p c' = true → c' = c) :
    l.find? p = some c := by
  induction l with
  | nil => cases hmem
  | cons x xs ih =>
    by_cases hx : p x = true
    · have hxc : x = c := huniq x (List.mem_cons_self x xs) hx
      subst hxc
      exact List.find?_cons_of_pos xs hx
    · have hcx : c ∈ xs := by
        cases List.mem_cons.mp hmem with
        | inl h => exact absurd (h ▸ hc) hx
        | inr h => exact h
      rw [List.find?_cons_of_neg xs hx]
      exact ih hcx (fun c' hc' hp => huniq c' (List.mem_cons_of_mem x hc') hp)

/-- C4 counterexample: with the registered npm collector and the malformed
lockfile content `Json.null`, the run on the matching path
"package-lock.json" ends in the very same outcome (`none`, the
`expect "No collector found for dependency file"` panic) as the run on the
unmatched path "Cargo.lock" — the parse failure is not propagated as a Parse
error distinct from the unsupported-lockfile failure. -/
theorem pipeline_parse_failure_not_distinct_cx :
    run_pipeline [demo_npm_collector] "package-lock.json" Json.null =
      run_pipeline [demo_npm_collector] "Cargo.lock" Json.null ∧
    run_pipeline [demo_npm_collector] "package-lock.json" Json.null = none :=
  ⟨rfl, rfl⟩

/-- C4 (amended): when the selected collector's `get_dependencies` fails on
malformed lockfile content, the run aborts before any retrieval starts, but
the failure surfaces as the same `expect "No collector found for dependency
file"` panic (`none`) as an unsupported lockfile: `check.rs` discards the
parse error with `.ok()` instead of propagating a distinct Parse error. -/
theorem pipeline_parse_failure_aborts {α : Type}
    (collectors : List (FileCollector α)) (path : String) (content : α)
    (c : FileCollector α) (e : String)
    (hfind : find_collector collectors path = some c)
    (hparse : c.get_dependencies content = .error e) :
    run_pipeline collectors path content = none := by
  simp [run_pipeline, hfind, hparse, Except.toOption]

/-- C4 witness: the amended behaviour at the concrete malformed content
`Json.null` under the matching path. -/
theorem pipeline_parse_failure_aborts_witness :
    run_pipeline [demo_npm_collector] "a/package-lock.json" Json.null = none :=
  pipeline_parse_failure_aborts [demo_npm_collector] "a/package-lock.json"
    Json.null demo_npm_collector "invalid package-lock.json" rfl rfl

/-- C5: the pipeline selects the first registered collector whose
`dependency_filename` occurs as a substring of the supplied path — in
particular, when exactly one registered collector's filename occurs in the
path, that collector is selected and the run's outcome is that collector's
(and no other's) — and when no registered filename occurs in the path the
run fails with the unsupported-lockfile outcome (`none`, the `expect` panic)
before any retrieval occurs. -/
theorem pipeline_collector_selection {α : Type}
    (collectors : List (FileCollector α)) (path : String) (content : α) :
    ((∀ c ∈ collectors, string_contains path c.dependency_filename = false) →
      find_collector collectors path = none ∧
      run_pipeline collectors path content = none) ∧
    (∀ c ∈ collectors, string_contains path c.dependency_filename = true →
      (∀ c' ∈ collectors,
        string_contains path c'.dependency_filename = true → c' = c) →
      find_collector collectors path = some c ∧
      run_pipeline collectors path content =
        (c.get_dependencies content).toOption) := by
  constructor
  · intro hnone
    have hf : find_collector collectors path = none := by
      apply List.find?_eq_none.mpr
      intro c hc
      simp [hnone c hc]
    exact ⟨hf, by simp [run_pipeline, hf]⟩
  · intro c hmem hc huniq
    have hf : find_collector collectors path = some c :=
      find?_eq_of_unique _ collectors c hmem hc huniq
    exact ⟨hf, by simp [run_pipeline, hf]⟩

/-- C5 witness: with the npm and cargo collectors registered, the path
"a/Cargo.lock" contains exactly the cargo collector's filename and the run's
outcome is the cargo collector's, while the path "yarn.lock" contains no
registered filename and the run fails with the unsupported-lockfile outcome. -/
theorem pipeline_collector_selection_witness :
    run_pipeline [demo_npm_collector, demo_cargo_collector] "a/Cargo.lock"
        Json.null = some [] ∧
    run_pipeline [demo_npm_collector, demo_cargo_collector] "yarn.lock"
        Json.null = none := by
  constructor
  · have h := (pipeline_collector_selection
        [demo_npm_collector, demo_cargo_collector] "a/Cargo.lock" Json.null).2
        demo_cargo_collector (by simp) (by decide)
        (fun c' hmem hcont => by
          rcases List.mem_cons.mp hmem with h1 | h1
          · subst h1; exact absurd hcont (by decide)
          · rcases List.mem_cons.mp h1 with h2 | h2
            · exact h2
            · cases h2)
    exact h.2.trans rfl
  · have h := (pipeline_collector_selection
        [demo_npm_collector, demo_cargo_collector] "yarn.lock" Json.null).1
        (fun c' hmem => by
          rcases List.mem_cons.mp hmem with h1 | h1
          · subst h1; decide
          · rcases List.mem_cons.mp h1 with h2 | h2
            · subst h2; decide
            · cases h2)
    exact h.2

/-- C8: whenever the lockfile content parses into a list of dependency
entries, `get_dependencies` succeeds and draining the resulting stream yields
exactly one `RetrievedDependency` per parsed entry — the record the retriever
produced for it — so every declared dependency is accounted for. -/
theorem npm_get_dependencies_one_record_per_entry
    (retriever : String → String → Except Empty RetrievedDependency)
    (content : Json) (deps : List Dependency)
    (h : parse_npm_dependencies content = .ok deps) :
    npm_collector_get_dependencies retriever content =
      .ok (retrieve_from_npm deps retriever) ∧
    (retrieve_from_npm deps retriever).length = deps.length := by
  constructor
  · unfold npm_collector_get_dependencies
    rw [h]
    rfl
  · unfold retrieve_from_npm
    exact List.length_map deps _

/-- C8 witness: a concrete two-entry lockfile parses into two dependencies
and the drained stream has exactly one record per entry. -/
theorem npm_get_dependencies_one_record_per_entry_witness :
    npm_collector_get_dependencies demo_retriever
        (Json.obj [("dependencies",
          Json.obj [("left-pad", Json.obj [("version", Json.str "1.3.0")]),
                    ("foo", Json.obj [("version", Json.str "2.0.0")])])]) =
      .ok (retrieve_from_npm
        [{ name := "left-pad", version := "1.3.0" },
         { name := "foo", version := "2.0.0" }] demo_retriever) ∧
    (retrieve_from_npm
        [{ name := "left-pad", version := "1.3.0" },
         { name := "foo", version := "2.0.0" }] demo_retriever).length =
      ([{ name := "left-pad", version := "1.3.0" },
        { name := "foo", version := "2.0.0" }] : List Dependency).length :=
  npm_get_dependencies_one_record_per_entry demo_retriever
    (Json.obj [("dependencies",
      Json.obj [("left-pad", Json.obj [("version", Json.str "1.3.0")]),
                ("foo", Json.obj [("version", Json.str "2.0.0")])])])
    [{ name := "left-pad", version := "1.3.0" },
     { name := "foo", version := "2.0.0" }] rfl

end Licensebat
